import Mathlib

/-!
Verification development for the `fileconvert` repository.

The Python sources are shallowly embedded: pure string manipulation becomes
Lean functions on `String` / `List Char`; the effectful conversion entry
points are modelled both as event traces (order of filesystem accesses,
prints and raised exceptions) and as explicit state passing parameterised
over the opaque third-party libraries (image codec save outcomes, exiftool
outcomes).  Python floats only ever appear here as a value divided
repeatedly by 1024 and formatted with two decimals; for the byte counts in
scope those operations are exact in binary floating point, so the model
uses exact integer arithmetic with round-half-even, matching CPython's
formatting of the same values.
-/

namespace Fileconvert

/-- ASCII lower-casing of a single character, embedding the effect of
Python's `str.lower()` on the ASCII range (the only range exercised by
extension tokens in this repository). -/
def lowerChar (c : Char) : Char :=
  if c = 'A' then 'a' else if c = 'B' then 'b' else if c = 'C' then 'c'
  else if c = 'D' then 'd' else if c = 'E' then 'e' else if c = 'F' then 'f'
  else if c = 'G' then 'g' else if c = 'H' then 'h' else if c = 'I' then 'i'
  else if c = 'J' then 'j' else if c = 'K' then 'k' else if c = 'L' then 'l'
  else if c = 'M' then 'm' else if c = 'N' then 'n' else if c = 'O' then 'o'
  else if c = 'P' then 'p' else if c = 'Q' then 'q' else if c = 'R' then 'r'
  else if c = 'S' then 's' else if c = 'T' then 't' else if c = 'U' then 'u'
  else if c = 'V' then 'v' else if c = 'W' then 'w' else if c = 'X' then 'x'
  else if c = 'Y' then 'y' else if c = 'Z' then 'z' else c

/-- Embedding of Python's `str.lower()` (ASCII range). -/
def pyLower (s : String) : String :=
  String.mk (s.data.map lowerChar)

/-- Does the character list start with the given pattern? -/
def startsWithChars : List Char → List Char → Bool
  | [], _ => true
  | _ :: _, [] => false
  | p :: ps, c :: cs => p = c && startsWithChars ps cs

/-- Does the pattern occur as a contiguous run inside the character list? -/
def containsChars (s pat : List Char) : Bool :=
  match s with
  | [] => pat.isEmpty
  | _ :: cs => startsWithChars pat s || containsChars cs pat

/-- Embedding of Python's substring test `pat in s`. -/
def strContains (s pat : String) : Bool :=
  containsChars s.data pat.data

/-- Embedding of Python's `s.endswith(post)`. -/
def pyEndsWith (s post : String) : Bool :=
  startsWithChars post.data.reverse s.data.reverse

/-- Characters of `s` split at every occurrence of `c`; used to count the
lines of an extracted text block. -/
def splitAtChar (c : Char) : List Char → List (List Char)
  | [] => [[]]
  | x :: xs =>
    if x = c then [] :: splitAtChar c xs
    else
      match splitAtChar c xs with
      | [] => [[x]]
      | h :: t => (x :: h) :: t

/-- Lines of a text block, separated by newline characters. -/
def linesOf (s : String) : List String :=
  (splitAtChar '\n' s.data).map String.mk

/-- Embedding of Python's `sep.join(xs)`. -/
def pyJoin (sep : String) : List String → String
  | [] => ""
  | [x] => x
  | x :: y :: xs => x ++ sep ++ pyJoin sep (y :: xs)

/-- Embedding of `os.path.basename` for POSIX separators: the part of the
path after the last slash. -/
def basename (p : String) : String :=
  String.mk ((p.data.reverse.takeWhile (fun c => c ≠ '/')).reverse)

/-- Index of the last occurrence of `c` in `cs`, if any (Python `str.rfind`
returning an `Option` instead of -1). -/
def lastIndexOf (cs : List Char) (c : Char) : Option Nat :=
  (List.range cs.length).foldl
    (fun acc i => if cs.get? i = some c then some i else acc) none

/-- Embedding of `os.path.splitext(p)[1]` (POSIX): the extension of the
final path component, including its dot, or the empty string.  A dot counts
only if it lies strictly inside the final component and some earlier
character of that component is not a dot (leading dots are not extension
separators in CPython's `genericpath._splitext`). -/
def splitextExt (p : String) : String :=
  let cs := p.data
  match lastIndexOf cs '.' with
  | none => ""
  | some d =>
    let fstart : Nat := match lastIndexOf cs '/' with
      | none => 0
      | some s => s + 1
    if fstart ≤ d ∧ (List.range' fstart (d - fstart)).any
        (fun j => cs.get? j ≠ some '.') then
      String.mk (cs.drop d)
    else ""

/-- Embedding of `os.path.splitext(output_filepath)[1][1:].lower()`, the
format token computed by all three conversion entry points in
`src/convert.py` (lines 48, 75, 114). -/
def extToken (p : String) : String :=
  pyLower (String.mk ((splitextExt p).data.drop 1))

/-- Round-half-even (banker's rounding, as used by CPython float
formatting) of the fraction `a / b` to the nearest natural number. -/
def roundHalfEvenDiv (a b : Nat) : Nat :=
  let q := a / b
  let r := a % b
  if 2 * r < b then q
  else if b < 2 * r then q + 1
  else if q % 2 = 0 then q else q + 1

/-- Formatting of the nonnegative fraction `a / b` with exactly two decimal
places, embedding a CPython format of the same exact value (exact for
the dyadic values arising in this repository). -/
def fmtFixed2Frac (a b : Nat) : String :=
  let c := roundHalfEvenDiv (100 * a) b
  toString (c / 100) ++ "." ++
    (if c % 100 < 10 then "0" ++ toString (c % 100) else toString (c % 100))

/-- Unit names of the size loop in `get_file_size`
(`src/pathkit.py` line 165, `src/utility.py` line 153). -/
def sizeUnits : List String := ["B", "KB", "MB", "GB", "TB", "PB"]

/-- Loop counter of `get_file_size`'s while loop: starting from unit index
`i`, keep dividing while the scaled value `n / 1024 ^ i` is at least 1024
and a larger unit remains (`i < 5`).  The float comparison
`value >= 1024` with `value = n / 1024.0 ^ i` is exact and equivalent to
`1024 ^ (i + 1) ≤ n` for the integer byte counts in scope.  Fuel 5 is
enough because `i` grows by one per step and the loop stops at `i = 5`. -/
def scaleExp : Nat → Nat → Nat → Nat
  | 0, _, i => i
  | fuel + 1, n, i =>
    if 1024 ^ (i + 1) ≤ n ∧ i < 5 then scaleExp fuel n (i + 1) else i

/-- Human-readable string built by the nonzero branch of `get_file_size`
(`src/pathkit.py` lines 165-171): scale, then format with two decimals and
append the unit name. -/
def sizeString (n : Nat) : String :=
  let i := scaleExp 5 n 0
  fmtFixed2Frac n (1024 ^ i) ++ " " ++ sizeUnits.getD i ""

/-- Python value returned by `get_file_size`: the zero branch returns a
bare string while the other branch returns a two-tuple. -/
inductive PyValue where
  | str (s : String)
  | pair (s : String) (n : Nat)
  deriving DecidableEq

/-- Is the value a two-tuple (as opposed to a bare string)? -/
def PyValue.isPair : PyValue → Bool
  | PyValue.pair _ _ => true
  | _ => false

/-- Embedding of `get_file_size` (`src/pathkit.py` lines 152-171, identical
in `src/utility.py` lines 141-159) as a function of the byte count read
from the filesystem: `if size_bytes == 0: return "0B"` returns a bare
string; otherwise the string/byte-count pair is returned. -/
def get_file_size (n : Nat) : PyValue :=
  if n = 0 then PyValue.str "0B" else PyValue.pair (sizeString n) n

/-- Human-readable component of whatever `get_file_size` returns. -/
def displayedSize (n : Nat) : String :=
  match get_file_size n with
  | PyValue.str s => s
  | PyValue.pair s _ => s

/-- Python exception classes raised by the embedded code.
`fileNotFoundError` is a subclass of `OSError` in Python, which matters for
which `except` clause catches it. -/
inductive PyErr where
  | valueError (msg : String)
  | typeError (msg : String)
  | osError (msg : String)
  | fileNotFoundError (msg : String)
  | calledProcessError (msg : String)
  deriving DecidableEq

/-- Message carried by an exception (Python `str(e)`). -/
def PyErr.msg : PyErr → String
  | PyErr.valueError m => m
  | PyErr.typeError m => m
  | PyErr.osError m => m
  | PyErr.fileNotFoundError m => m
  | PyErr.calledProcessError m => m

/-- Membership in Python's `OSError` class hierarchy, which an
`except OSError` clause catches. -/
def PyErr.isOSErrorClass : PyErr → Bool
  | PyErr.osError _ => true
  | PyErr.fileNotFoundError _ => true
  | _ => false

/-- Observable effects of the embedded entry points, in program order:
filesystem accesses (open for read, write/create, stat), spawned external
processes, printed lines, and raised exceptions. -/
inductive Event where
  | fsOpen (path : String)
  | fsWrite (path : String)
  | fsStat (path : String)
  | spawn (cmd : List String)
  | printLine (msg : String)
  | raiseErr (e : PyErr)
  deriving DecidableEq

/-- Does the event touch the filesystem (reads, writes, stats, and spawned
external processes, which operate on files)? -/
def Event.isFs : Event → Bool
  | Event.fsOpen _ => true
  | Event.fsWrite _ => true
  | Event.fsStat _ => true
  | Event.spawn _ => true
  | _ => false

/-- Is the event a raised exception? -/
def Event.isRaise : Event → Bool
  | Event.raiseErr _ => true
  | _ => false

/-- First event in the trace that either touches the filesystem or raises. -/
def firstEffect (t : List Event) : Option Event :=
  t.find? (fun e => e.isFs || e.isRaise)

/-- The trace raises an exception strictly before any filesystem access:
among filesystem accesses and raises, the first one is a raise. -/
def raisesBeforeFs (t : List Event) : Bool :=
  match firstEffect t with
  | some (Event.raiseErr _) => true
  | _ => false

/-- Number of positional parameters of `print_conversion_info`
(`src/convert.py` line 25: `input_filepath`, `output_filepath`). -/
def print_conversion_info_params : Nat := 2

/-- Number of arguments passed at every call of `print_conversion_info`
inside `src/convert.py` (lines 56, 93, 146: `print_conversion_info()`). -/
def print_conversion_info_call_args : Nat := 0

/-- Report line built by the body of `print_conversion_info`
(`src/convert.py` lines 26-31), as a function of the two paths and the two
byte counts read from the filesystem.  Tuple unpacking of `get_file_size`
is modelled by `displayedSize`; the size ratio `size1/size0*100` is
formatted with two decimals. -/
def conversionInfoLine (inp out : String) (size0 size1 : Nat) : String :=
  "convert: \"" ++ basename inp ++ "\" (" ++ displayedSize size0 ++ ") -> \"" ++
    basename out ++ "\" (" ++ displayedSize size1 ++ "), " ++
    fmtFixed2Frac (100 * size1) size0 ++ "% of original size."

/-- Events of the reporting epilogue shared by the three conversion entry
points of `src/convert.py`: each calls `print_conversion_info()` with zero
arguments although the function takes two positional parameters, so CPython
raises `TypeError` at the call, before the function body runs.  The
would-be successful branch (statting both files, printing the report line)
is reachable only if the arities matched.  `sz` is the byte count the
filesystem would report for each path. -/
def reportStep (sz : String → Nat) (inp out : String) : List Event :=
  if print_conversion_info_call_args = print_conversion_info_params then
    [Event.fsStat inp, Event.fsStat out,
     Event.printLine (conversionInfoLine inp out (sz inp) (sz out))]
  else
    [Event.raiseErr (PyErr.typeError
      "print_conversion_info() missing 2 required positional arguments: 'input_filepath' and 'output_filepath'")]

/-- Event trace of `convert_audio` (`src/convert.py` lines 33-56): compute
the format token from the output path; raise `ValueError` if it is empty;
otherwise read the source (`AudioSegment.from_file`), write the destination
(`export`), then run the reporting epilogue when requested. -/
def convert_audio_trace (sz : String → Nat) (inp out : String)
    (print_info : Bool) : List Event :=
  if extToken out = "" then
    [Event.raiseErr (PyErr.valueError
      "Output file must have an extension to determine the format.")]
  else
    [Event.fsOpen inp, Event.fsWrite out] ++
      (if print_info then reportStep sz inp out else [])

/-- Event trace of `convert_video` (`src/convert.py` lines 58-93): compute
the format token; raise `ValueError` if empty; otherwise spawn ffmpeg with
the documented argument vector, then the reporting epilogue. -/
def convert_video_trace (sz : String → Nat) (inp out : String)
    (resolution bitrate : String) (print_info : Bool) : List Event :=
  if extToken out = "" then
    [Event.raiseErr (PyErr.valueError
      "Output file must have an extension to determine the format.")]
  else
    [Event.spawn ["ffmpeg", "-y", "-i", inp, "-s", resolution,
       "-b:v", bitrate, out]] ++
      (if print_info then reportStep sz inp out else [])

/-- Event trace of `convert_image` (`src/convert.py` lines 99-146) on its
nominal path (successful save, metadata copying disabled): the source is
opened with `Image.open` FIRST (line 112), and only then is the format
token computed and the missing-extension `ValueError` raised (lines
114-116).  Exceptional save outcomes are modelled separately by
`convert_image_save`. -/
def convert_image_trace (sz : String → Nat) (inp out : String)
    (print_info : Bool) : List Event :=
  Event.fsOpen inp ::
    (if extToken out = "" then
      [Event.raiseErr (PyErr.valueError "Output file must have an extension.")]
    else
      [Event.fsWrite out] ++
        (if print_info then reportStep sz inp out else []))

/-- Pixel-mode of an in-memory PIL image, as far as the embedded logic
distinguishes it: `image.convert('RGB')` yields `rgb`. -/
inductive PyImageMode where
  | rgba
  | rgb
  | otherMode
  deriving DecidableEq

/-- Outcome of one `image.save(...)` call of the opaque image library. -/
inductive SaveOutcome where
  | ok
  | err (e : PyErr)
  deriving DecidableEq

/-- State threaded through the image conversion pipeline: what pixel
content has been written at the destination, which source the destination's
metadata was copied from (by exiftool), warnings printed so far, the
exception currently propagating (if any), and the modes passed to the
successive `image.save` attempts. -/
structure ImgState where
  destContent : Option PyImageMode
  destMetaFrom : Option String
  warnings : List String
  raised : Option PyErr
  saveAttempts : List PyImageMode
  deriving DecidableEq

/-- Error-message marker tested by `convert_image`
(`src/convert.py` line 123). -/
def rgbaMarker : String := "cannot write mode RGBA"

/-- Warning printed before the RGB fallback (`src/convert.py` line 125). -/
def rgbaWarnMsg : String := "Warning: RGBA mode not supported; converting to RGB."

/-- Embedding of the try/except save block of `convert_image`
(`src/convert.py` lines 120-127).  `mode` is the mode of the opened image;
`beh` gives the opaque library's outcome for saving an image of a given
mode at the fixed destination, format and quality.  Faithful to Python
control flow: only members of the `OSError` class are caught by
`except OSError as e`; inside the handler, if `str(e)` contains the RGBA
marker the image is converted to RGB and saved once more (a failure of that
second save is uncaught and propagates), while an `OSError` without the
marker falls off the end of the handler and is silently swallowed. -/
def convert_image_save (mode : PyImageMode) (beh : PyImageMode → SaveOutcome)
    (suppress_warn : Bool) : ImgState :=
  match beh mode with
  | SaveOutcome.ok =>
    { destContent := some mode, destMetaFrom := none, warnings := [],
      raised := none, saveAttempts := [mode] }
  | SaveOutcome.err e =>
    if e.isOSErrorClass then
      if strContains e.msg rgbaMarker then
        let w := if suppress_warn then [] else [rgbaWarnMsg]
        match beh PyImageMode.rgb with
        | SaveOutcome.ok =>
          { destContent := some PyImageMode.rgb, destMetaFrom := none,
            warnings := w, raised := none,
            saveAttempts := [mode, PyImageMode.rgb] }
        | SaveOutcome.err e2 =>
          { destContent := none, destMetaFrom := none, warnings := w,
            raised := some e2, saveAttempts := [mode, PyImageMode.rgb] }
      else
        { destContent := none, destMetaFrom := none, warnings := [],
          raised := none, saveAttempts := [mode] }
    else
      { destContent := none, destMetaFrom := none, warnings := [],
        raised := some e, saveAttempts := [mode] }

/-- Outcome of the `subprocess.run(['exiftool', ...], check=True)` call:
success, the executable being absent (`FileNotFoundError`), or a non-zero
exit (`CalledProcessError`). -/
inductive ExifOutcome where
  | success
  | toolNotFound
  | exitFailure
  deriving DecidableEq

/-- Warning printed when exiftool is absent (`src/convert.py` line 140). -/
def exifMissingMsg : String :=
  "ExifTool is not installed or not in PATH. Metadata will not be copied."

/-- Warning printed when exiftool exits non-zero
(`src/convert.py` line 143). -/
def exifFailedMsg : String := "ExifTool failed to copy metadata."

/-- Embedding of the metadata post-step of `convert_image`
(`src/convert.py` lines 129-143): when `keep_metadata` is set, run
exiftool; on success the destination's metadata now comes from the source
path; both failure modes are caught, optionally print a warning, and leave
the rest of the state untouched. -/
def metadata_step (inputPath : String) (keep_metadata : Bool)
    (exif : ExifOutcome) (suppress_warn : Bool) (st : ImgState) : ImgState :=
  if keep_metadata then
    match exif with
    | ExifOutcome.success => { st with destMetaFrom := some inputPath }
    | ExifOutcome.toolNotFound =>
      { st with warnings :=
          st.warnings ++ (if suppress_warn then [] else [exifMissingMsg]) }
    | ExifOutcome.exitFailure =>
      { st with warnings :=
          st.warnings ++ (if suppress_warn then [] else [exifFailedMsg]) }
  else st

/-- Composition of the save block and the metadata post-step of
`convert_image`: if the save block left an exception propagating, Python
never reaches the metadata step. -/
def convert_image_run (mode : PyImageMode) (beh : PyImageMode → SaveOutcome)
    (inputPath : String) (keep_metadata : Bool) (exif : ExifOutcome)
    (suppress_warn : Bool) : ImgState :=
  if (convert_image_save mode beh suppress_warn).raised = none then
    metadata_step inputPath keep_metadata exif suppress_warn
      (convert_image_save mode beh suppress_warn)
  else convert_image_save mode beh suppress_warn

/-- Alias normalization applied to the destination-extension token by
`convert_image` in `src/convert.py` (lines 114-118): lower-case, then map
jpg to jpeg.  There is no heic/heif clause in this file. -/
def normalize_format_convert (ext : String) : String :=
  if pyLower ext = "jpg" then "jpeg" else pyLower ext

/-- Alias normalization applied by `convert_image` in `src/utility.py`
(lines 115-121): lower-case, map jpg to jpeg, and map heic/heif to heif. -/
def normalize_format_utility (ext : String) : String :=
  if pyLower ext = "jpg" then "jpeg"
  else if pyLower ext = "heic" ∨ pyLower ext = "heif" then "heif"
  else pyLower ext

/-- Embedding of the text assembly of `extract_text_from_doc`
(`src/extract.py` line 45): join the paragraph texts reported by the
document parser with newline separators. -/
def extract_text_from_doc (paragraphs : List String) : String :=
  pyJoin "\n" paragraphs

/-- Embedding of the text assembly of `extract_text_from_pdf`
(`src/extract.py` lines 72-74): starting from the empty string, append
each page's `extract_text()` result, substituting the empty string when the
parser returns `None`; no separator is inserted between pages. -/
def extract_text_from_pdf (pages : List (Option String)) : String :=
  pages.foldl (fun text pg => text ++ pg.getD "") ""

/-- RGB pixel. -/
abbrev Pixel := Nat × Nat × Nat

/-- Decoded image after `convert("RGB")`: rows of RGB pixels. -/
abbrev PdfImage := List (List Pixel)

/-- Solid black image of the same dimensions as `img`
(`Image.new("RGB", image.size, (0, 0, 0))` in `src/extract.py` line 136). -/
def blackLike (img : PdfImage) : PdfImage :=
  img.map (fun row => row.map (fun _ => ((0, 0, 0) : Pixel)))

/-- Test applied by `extract_images_from_pdf` (`src/extract.py` lines
139-141): `ImageChops.difference(image, black).getbbox() is None`, i.e.
the channel-wise absolute difference against solid black has no non-zero
pixel, i.e. every pixel of the image is (0, 0, 0). -/
def isAllBlack (img : PdfImage) : Bool :=
  img.all (fun row => row.all (fun px => px = ((0, 0, 0) : Pixel)))

/-- Embedding of the collection loop of `extract_images_from_pdf`
(`src/extract.py` lines 125-146): iterate over the pages in order and over
each page's embedded images in the parser's order, skip an image when it is
entirely black, and append the survivors. -/
def extract_images_from_pdf (pages : List (List PdfImage)) : List PdfImage :=
  pages.foldl
    (fun imgs page =>
      page.foldl
        (fun imgs2 img => if isAllBlack img then imgs2 else imgs2 ++ [img])
        imgs)
    []

/-- Event trace of `extract_text_from_doc` (`src/extract.py` lines 26-51):
reject unless the lower-cased path ends with the docx suffix, else open the
document and optionally write the text file. -/
def extract_text_from_doc_trace (inp outp : String) : List Event :=
  if !(pyEndsWith (pyLower inp) ".docx") then
    [Event.raiseErr (PyErr.valueError "Only .docx files are supported (not .doc).")]
  else
    [Event.fsOpen inp] ++ (if outp = "" then [] else [Event.fsWrite outp])

/-- Event trace of `extract_text_from_pdf` (`src/extract.py` lines 53-80). -/
def extract_text_from_pdf_trace (inp outp : String) : List Event :=
  if !(pyEndsWith (pyLower inp) ".pdf") then
    [Event.raiseErr (PyErr.valueError "Only .pdf files are supported.")]
  else
    [Event.fsOpen inp] ++ (if outp = "" then [] else [Event.fsWrite outp])

/-- Event trace of `extract_images_from_doc`
(`src/extract.py` lines 83-105). -/
def extract_images_from_doc_trace (inp : String) : List Event :=
  if !(pyEndsWith (pyLower inp) ".docx") then
    [Event.raiseErr (PyErr.valueError "Only .docx files are supported.")]
  else
    [Event.fsOpen inp]

/-- Event trace of `extract_images_from_pdf`
(`src/extract.py` lines 109-146). -/
def extract_images_from_pdf_trace (inp : String) : List Event :=
  if !(pyEndsWith (pyLower inp) ".pdf") then
    [Event.raiseErr (PyErr.valueError "Only .pdf files are supported.")]
  else
    [Event.fsOpen inp]

/-! Helper lemmas. -/

theorem lowerChar_idem (c : Char) : lowerChar (lowerChar c) = lowerChar c := by
  by_cases h1 : c = 'A'
  · subst h1; decide
  by_cases h2 : c = 'B'
  · subst h2; decide
  by_cases h3 : c = 'C'
  · subst h3; decide
  by_cases h4 : c = 'D'
  · subst h4; decide
  by_cases h5 : c = 'E'
  · subst h5; decide
  by_cases h6 : c = 'F'
  · subst h6; decide
  by_cases h7 : c = 'G'
  · subst h7; decide
  by_cases h8 : c = 'H'
  · subst h8; decide
  by_cases h9 : c = 'I'
  · subst h9; decide
  by_cases h10 : c = 'J'
  · subst h10; decide
  by_cases h11 : c = 'K'
  · subst h11; decide
  by_cases h12 : c = 'L'
  · subst h12; decide
  by_cases h13 : c = 'M'
  · subst h13; decide
  by_cases h14 : c = 'N'
  · subst h14; decide
  by_cases h15 : c = 'O'
  · subst h15; decide
  by_cases h16 : c = 'P'
  · subst h16; decide
  by_cases h17 : c = 'Q'
  · subst h17; decide
  by_cases h18 : c = 'R'
  · subst h18; decide
  by_cases h19 : c = 'S'
  · subst h19; decide
  by_cases h20 : c = 'T'
  · subst h20; decide
  by_cases h21 : c = 'U'
  · subst h21; decide
  by_cases h22 : c = 'V'
  · subst h22; decide
  by_cases h23 : c = 'W'
  · subst h23; decide
  by_cases h24 : c = 'X'
  · subst h24; decide
  by_cases h25 : c = 'Y'
  · subst h25; decide
  by_cases h26 : c = 'Z'
  · subst h26; decide
  have hc : lowerChar c = c := by
    unfold lowerChar
    rw [if_neg h1, if_neg h2, if_neg h3, if_neg h4, if_neg h5, if_neg h6,
      if_neg h7, if_neg h8, if_neg h9, if_neg h10, if_neg h11, if_neg h12,
      if_neg h13, if_neg h14, if_neg h15, if_neg h16, if_neg h17, if_neg h18,
      if_neg h19, if_neg h20, if_neg h21, if_neg h22, if_neg h23, if_neg h24,
      if_neg h25, if_neg h26]
  rw [hc, hc]

theorem mapLower_idem (l : List Char) :
    (l.map lowerChar).map lowerChar = l.map lowerChar := by
  induction l with
  | nil => rfl
  | cons h t ih => simp [List.map_cons, lowerChar_idem, ih]

theorem pyLower_idem (s : String) : pyLower (pyLower s) = pyLower s := by
  show String.mk ((s.data.map lowerChar).map lowerChar) = _
  exact congrArg String.mk (mapLower_idem s.data)

theorem intercalate_go_eq (sep : String) (as : List String) :
    ∀ a : String, String.intercalate.go a sep as = pyJoin sep (a :: as) := by
  induction as with
  | nil => intro a; rfl
  | cons b bs ih =>
    intro a
    show String.intercalate.go (a ++ sep ++ b) sep bs = _
    rw [ih (a ++ sep ++ b)]
    cases bs with
    | nil => rfl
    | cons c cs => simp [pyJoin, String.append_assoc]

theorem pyJoin_eq_intercalate (sep : String) (l : List String) :
    pyJoin sep l = String.intercalate sep l := by
  cases l with
  | nil => rfl
  | cons a as => exact (intercalate_go_eq sep as a).symm

theorem scaleExp_spec (fuel : Nat) : ∀ (n i : Nat), i + fuel = 5 →
    (∀ j : Nat, j < i → 1024 ^ (j + 1) ≤ n) →
    i ≤ scaleExp fuel n i ∧ scaleExp fuel n i ≤ 5 ∧
    (n < 1024 ^ (scaleExp fuel n i + 1) ∨ scaleExp fuel n i = 5) ∧
    (∀ j : Nat, j < scaleExp fuel n i → 1024 ^ (j + 1) ≤ n) := by
  induction fuel with
  | zero =>
    intro n i hif hj
    have h5 : i = 5 := by omega
    subst h5
    exact ⟨Nat.le_refl 5, Nat.le_refl 5, Or.inr rfl, hj⟩
  | succ fuel ih =>
    intro n i hif hj
    have hstep : scaleExp (fuel + 1) n i =
        if 1024 ^ (i + 1) ≤ n ∧ i < 5 then scaleExp fuel n (i + 1) else i := rfl
    rw [hstep]
    by_cases hc : 1024 ^ (i + 1) ≤ n ∧ i < 5
    · rw [if_pos hc]
      have hrec := ih n (i + 1) (by omega) (by
        intro j hlt
        rcases Nat.lt_succ_iff_lt_or_eq.mp hlt with h | h
        · exact hj j h
        · subst h; exact hc.1)
      exact ⟨Nat.le_trans (Nat.le_succ i) hrec.1, hrec.2.1, hrec.2.2.1, hrec.2.2.2⟩
    · rw [if_neg hc]
      have hi5 : i < 5 := by omega
      have hn : ¬ 1024 ^ (i + 1) ≤ n := fun h => hc ⟨h, hi5⟩
      exact ⟨Nat.le_refl i, by omega, Or.inl (by omega), hj⟩

/-! Claim theorems. -/

/-- C1 counterexample: for the destination path "out", which has no
extension, `convert_image` does NOT raise the missing-extension error
before any filesystem access; it opens the source file first
(`Image.open` at `src/convert.py` line 112 precedes the extension check at
lines 114-116). -/
theorem C1_counterexample :
    extToken "out" = "" ∧
    convert_image_trace (fun _ => 0) "in.png" "out" false =
      [Event.fsOpen "in.png",
       Event.raiseErr (PyErr.valueError "Output file must have an extension.")] ∧
    raisesBeforeFs (convert_image_trace (fun _ => 0) "in.png" "out" false) = false := by
  decide

/-- C1 amended: for every destination path whose final component has no
extension, `convert_audio` and `convert_video` raise the missing-extension
`ValueError` before any filesystem access, while `convert_image` first
opens the source file and only then raises the missing-extension error,
before any further filesystem access (in particular before any write). -/
theorem C1_amended (sz : String → Nat) (inp out res br : String) (pi : Bool)
    (h : extToken out = "") :
    raisesBeforeFs (convert_audio_trace sz inp out pi) = true ∧
    raisesBeforeFs (convert_video_trace sz inp out res br pi) = true ∧
    convert_image_trace sz inp out pi =
      [Event.fsOpen inp,
       Event.raiseErr (PyErr.valueError "Output file must have an extension.")] := by
  refine ⟨?_, ?_, ?_⟩
  · unfold convert_audio_trace
    rw [if_pos h]
    rfl
  · unfold convert_video_trace
    rw [if_pos h]
    rfl
  · unfold convert_image_trace
    rw [if_pos h]

/-- C1 amended, witness at a concrete extensionless destination. -/
theorem C1_amended_witness :
    extToken "out" = "" ∧
    (raisesBeforeFs (convert_audio_trace (fun _ => 0) "a.wav" "out" false) = true ∧
     raisesBeforeFs (convert_video_trace (fun _ => 0) "a.wav" "out" "640x480" "256k" false) = true ∧
     convert_image_trace (fun _ => 0) "a.wav" "out" false =
       [Event.fsOpen "a.wav",
        Event.raiseErr (PyErr.valueError "Output file must have an extension.")]) :=
  ⟨by decide, C1_amended (fun _ => 0) "a.wav" "out" "640x480" "256k" false (by decide)⟩

/-- C3: in `src/convert.py` every conversion entry point calls
`print_conversion_info()` with zero arguments although the function takes
two positional parameters, so requesting reporting raises `TypeError`
after the conversion instead of printing the report line; the line that
the body of `print_conversion_info` would build for a 1,000,000-byte
source converted to a 250,000-byte destination does contain "25.00%". -/
theorem C3_report_type_error :
    (∀ sz : String → Nat,
      convert_audio_trace sz "in.wav" "out.mp3" true =
        [Event.fsOpen "in.wav", Event.fsWrite "out.mp3",
         Event.raiseErr (PyErr.typeError
           "print_conversion_info() missing 2 required positional arguments: 'input_filepath' and 'output_filepath'")]) ∧
    strContains (conversionInfoLine "d/a.wav" "d/b.mp3" 1000000 250000) "25.00%" = true ∧
    conversionInfoLine "d/a.wav" "d/b.mp3" 1000000 250000 =
      "convert: \"a.wav\" (976.56 KB) -> \"b.mp3\" (244.14 KB), 25.00% of original size." := by
  refine ⟨fun sz => rfl, by decide, by decide⟩

/-- C5: for a zero-byte file `get_file_size` returns the bare string "0B",
not the pair ("0B", 0); the zero branch of the function
(`src/pathkit.py` lines 162-163) returns only the string, contradicting
the function's own docstring, so unpacking its result fails. -/
theorem C5_zero_returns_bare_string :
    get_file_size 0 = PyValue.str "0B" ∧
    (get_file_size 0).isPair = false ∧
    ∀ (s : String) (k : Nat), get_file_size 0 ≠ PyValue.pair s k := by
  refine ⟨rfl, rfl, ?_⟩
  intro s k h
  simp [get_file_size] at h

/-- C7 counterexample: the alias normalization of the exported image entry
point (`convert_image` in `src/convert.py`, lines 114-118) has no
heic/heif clause, so "heic" and "heif" normalize to different tokens. -/
theorem C7_counterexample :
    normalize_format_convert "heic" = "heic" ∧
    normalize_format_convert "heif" = "heif" ∧
    normalize_format_convert "heic" ≠ normalize_format_convert "heif" := by
  decide

/-- C7 amended: in both variants of `convert_image` the normalization maps
"JPG", "jpg" and "jpeg" to the same token and is idempotent; the
heic/heif merging holds only in the `src/utility.py` variant, while the
exported `src/convert.py` variant keeps "heic" and "heif" distinct. -/
theorem C7_amended :
    (normalize_format_convert "JPG" = "jpeg" ∧
     normalize_format_convert "jpg" = "jpeg" ∧
     normalize_format_convert "jpeg" = "jpeg") ∧
    (∀ s : String,
      normalize_format_convert (normalize_format_convert s) =
        normalize_format_convert s) ∧
    (normalize_format_utility "JPG" = "jpeg" ∧
     normalize_format_utility "jpg" = "jpeg" ∧
     normalize_format_utility "jpeg" = "jpeg" ∧
     normalize_format_utility "heic" = "heif" ∧
     normalize_format_utility "heif" = "heif") ∧
    (∀ s : String,
      normalize_format_utility (normalize_format_utility s) =
        normalize_format_utility s) ∧
    normalize_format_convert "heic" ≠ normalize_format_convert "heif" := by
  refine ⟨by decide, ?_, by decide, ?_, by decide⟩
  · intro s
    by_cases h : pyLower s = "jpg"
    · have h1 : normalize_format_convert s = "jpeg" := by
        unfold normalize_format_convert
        rw [if_pos h]
      rw [h1]
      decide
    · have h1 : normalize_format_convert s = pyLower s := by
        unfold normalize_format_convert
        rw [if_neg h]
      rw [h1]
      unfold normalize_format_convert
      rw [pyLower_idem, if_neg h]
  · intro s
    by_cases h : pyLower s = "jpg"
    · have h1 : normalize_format_utility s = "jpeg" := by
        unfold normalize_format_utility
        rw [if_pos h]
      rw [h1]
      decide
    · by_cases h2 : pyLower s = "heic" ∨ pyLower s = "heif"
      · have h1 : normalize_format_utility s = "heif" := by
          unfold normalize_format_utility
          rw [if_neg h, if_pos h2]
        rw [h1]
        decide
      · have h1 : normalize_format_utility s = pyLower s := by
          unfold normalize_format_utility
          rw [if_neg h, if_neg h2]
        rw [h1]
        unfold normalize_format_utility
        rw [pyLower_idem, if_neg h, if_neg h2]

/-- C2 counterexample: an `OSError` whose message does not contain the
RGBA marker (here a disk-full error) does not propagate to the caller of
`convert_image`: the handler at `src/convert.py` lines 122-127 catches
every `OSError` and re-raises nothing when the marker is absent, so the
error is silently swallowed and nothing is written. -/
theorem C2_counterexample :
    strContains "No space left on device" rgbaMarker = false ∧
    (convert_image_save PyImageMode.rgb
      (fun _ => SaveOutcome.err (PyErr.osError "No space left on device"))
      false).raised = none ∧
    (convert_image_save PyImageMode.rgb
      (fun _ => SaveOutcome.err (PyErr.osError "No space left on device"))
      false).destContent = none := by
  decide

/-- C2 amended: when the first save fails with an `OSError` whose message
contains "cannot write mode RGBA", the image is converted to RGB and the
save retried exactly once (a failure of the retry propagates unchanged);
a save failure outside the `OSError` class propagates unchanged; but an
`OSError` without the marker is silently swallowed: no retry, nothing
written, and no exception reaches the caller. -/
theorem C2_amended (mode : PyImageMode) (beh : PyImageMode → SaveOutcome)
    (sw : Bool) (e : PyErr) (hbeh : beh mode = SaveOutcome.err e) :
    (e.isOSErrorClass = true → strContains e.msg rgbaMarker = true →
      (convert_image_save mode beh sw).saveAttempts = [mode, PyImageMode.rgb] ∧
      (convert_image_save mode beh sw).warnings =
        (if sw then [] else [rgbaWarnMsg]) ∧
      (beh PyImageMode.rgb = SaveOutcome.ok →
        (convert_image_save mode beh sw).destContent = some PyImageMode.rgb ∧
        (convert_image_save mode beh sw).raised = none) ∧
      (∀ e2 : PyErr, beh PyImageMode.rgb = SaveOutcome.err e2 →
        (convert_image_save mode beh sw).raised = some e2 ∧
        (convert_image_save mode beh sw).destContent = none)) ∧
    (e.isOSErrorClass = false →
      convert_image_save mode beh sw =
        { destContent := none, destMetaFrom := none, warnings := [],
          raised := some e, saveAttempts := [mode] }) ∧
    (e.isOSErrorClass = true → strContains e.msg rgbaMarker = false →
      convert_image_save mode beh sw =
        { destContent := none, destMetaFrom := none, warnings := [],
          raised := none, saveAttempts := [mode] }) := by
  refine ⟨?_, ?_, ?_⟩
  · intro hOS hmark
    refine ⟨?_, ?_, ?_, ?_⟩
    · cases hrgb : beh PyImageMode.rgb with
      | ok => simp [convert_image_save, hbeh, hOS, hmark, hrgb]
      | err e2 => simp [convert_image_save, hbeh, hOS, hmark, hrgb]
    · cases hrgb : beh PyImageMode.rgb with
      | ok => simp [convert_image_save, hbeh, hOS, hmark, hrgb]
      | err e2 => simp [convert_image_save, hbeh, hOS, hmark, hrgb]
    · intro hok
      simp [convert_image_save, hbeh, hOS, hmark, hok]
    · intro e2 herr
      simp [convert_image_save, hbeh, hOS, hmark, herr]
  · intro hOS
    simp [convert_image_save, hbeh, hOS]
  · intro hOS hmark
    simp [convert_image_save, hbeh, hOS, hmark]

/-- C2 amended, witness: opening an RGBA image whose direct save fails
with the RGBA-marker error and whose RGB retry succeeds. -/
theorem C2_amended_witness :
    (convert_image_save PyImageMode.rgba
      (fun m => match m with
        | PyImageMode.rgb => SaveOutcome.ok
        | _ => SaveOutcome.err (PyErr.osError "cannot write mode RGBA as JPEG"))
      false).saveAttempts = [PyImageMode.rgba, PyImageMode.rgb] ∧
    (convert_image_save PyImageMode.rgba
      (fun m => match m with
        | PyImageMode.rgb => SaveOutcome.ok
        | _ => SaveOutcome.err (PyErr.osError "cannot write mode RGBA as JPEG"))
      false).destContent = some PyImageMode.rgb ∧
    (convert_image_save PyImageMode.rgba
      (fun m => match m with
        | PyImageMode.rgb => SaveOutcome.ok
        | _ => SaveOutcome.err (PyErr.osError "cannot write mode RGBA as JPEG"))
      false).raised = none := by
  have h := C2_amended PyImageMode.rgba
    (fun m => match m with
      | PyImageMode.rgb => SaveOutcome.ok
      | _ => SaveOutcome.err (PyErr.osError "cannot write mode RGBA as JPEG"))
    false (PyErr.osError "cannot write mode RGBA as JPEG") rfl
  have h1 := h.1 (by decide) (by decide)
  exact ⟨h1.1, (h1.2.2.1 rfl).1, (h1.2.2.1 rfl).2⟩

/-- C4: the human-readable size string is "0B" for zero bytes with no unit
scaling, "1.50 KB" for 1536 bytes, "1.00 MB" for 1,048,576 bytes, and in
general for a nonzero byte count `n` it formats `n / 1024 ^ i` with two
decimal places followed by the unit of index `i`, where the loop divided
by exactly 1024 while the value was at least 1024 and a larger unit
remained (units B, KB, MB, GB, TB, PB, capped at PB). -/
theorem C4_size_formatting :
    displayedSize 0 = "0B" ∧
    displayedSize 1536 = "1.50 KB" ∧
    displayedSize 1048576 = "1.00 MB" ∧
    ∀ n : Nat, n ≠ 0 →
      ∃ i : Nat, i ≤ 5 ∧
        displayedSize n = fmtFixed2Frac n (1024 ^ i) ++ " " ++ sizeUnits.getD i "" ∧
        (n < 1024 ^ (i + 1) ∨ i = 5) ∧
        (∀ j : Nat, j < i → 1024 ^ (j + 1) ≤ n) := by
  refine ⟨by decide, by decide, by decide, ?_⟩
  intro n hn
  refine ⟨scaleExp 5 n 0, ?_⟩
  obtain ⟨h1, h2, h3, h4⟩ := scaleExp_spec 5 n 0 (by omega) (by omega)
  have hgfs : get_file_size n = PyValue.pair (sizeString n) n := by
    unfold get_file_size
    rw [if_neg hn]
  have hd : displayedSize n = sizeString n := by
    unfold displayedSize
    rw [hgfs]
  exact ⟨h2, by rw [hd]; rfl, h3, h4⟩

/-- C4 witness at the concrete nonzero byte count 1536. -/
theorem C4_size_formatting_witness :
    (1536 : Nat) ≠ 0 ∧
    ∃ i : Nat, i ≤ 5 ∧
      displayedSize 1536 = fmtFixed2Frac 1536 (1024 ^ i) ++ " " ++ sizeUnits.getD i "" ∧
      (1536 < 1024 ^ (i + 1) ∨ i = 5) ∧
      (∀ j : Nat, j < i → 1024 ^ (j + 1) ≤ 1536) :=
  ⟨by decide, C4_size_formatting.2.2.2 1536 (by decide)⟩

/-- C6 counterexample: the PDF extractor concatenates page texts with no
separator (`text += page.extract_text() or ''` at `src/extract.py` line
74), so two pages "a" and "b" yield "ab", not the newline-joined text the
claim describes. -/
theorem C6_counterexample :
    extract_text_from_pdf [some "a", some "b"] = "ab" ∧
    String.intercalate "\n" ["a", "b"] = "a\nb" ∧
    extract_text_from_pdf [some "a", some "b"] ≠ String.intercalate "\n" ["a", "b"] := by
  decide

/-- C6 amended: the document extractor joins paragraph texts with newline
separators (so three non-empty paragraphs and one empty paragraph yield a
four-line block with the blank line in the corresponding position), while
the PDF extractor concatenates page texts with no separator, a page
yielding no extractable text contributing the empty string rather than an
error. -/
theorem C6_amended :
    (∀ paragraphs : List String,
      extract_text_from_doc paragraphs = String.intercalate "\n" paragraphs) ∧
    extract_text_from_doc ["a", "b", "", "c"] = "a\nb\n\nc" ∧
    linesOf (extract_text_from_doc ["a", "b", "", "c"]) = ["a", "b", "", "c"] ∧
    (∀ pages : List (Option String),
      extract_text_from_pdf pages = String.join (pages.map (fun o => o.getD ""))) ∧
    extract_text_from_pdf [some "x", none, some "y"] = "xy" := by
  refine ⟨?_, by decide, by decide, ?_, by decide⟩
  · intro paragraphs
    exact pyJoin_eq_intercalate "\n" paragraphs
  · intro pages
    unfold extract_text_from_pdf String.join
    rw [List.foldl_map]

/-- C8: with `keep_metadata` requested, a failing metadata post-step (tool
absent or non-zero exit) adds no exception beyond the save phase, leaves
the destination content, metadata provenance and save attempts exactly as
the save phase left them, stays silent when warnings are suppressed, and
otherwise appends exactly the corresponding warning line. -/
theorem C8_metadata_best_effort (mode : PyImageMode)
    (beh : PyImageMode → SaveOutcome) (inp : String) (exif : ExifOutcome)
    (sw : Bool) (hex : exif ≠ ExifOutcome.success) :
    (convert_image_run mode beh inp true exif sw).raised =
      (convert_image_save mode beh sw).raised ∧
    (convert_image_run mode beh inp true exif sw).destContent =
      (convert_image_save mode beh sw).destContent ∧
    (convert_image_run mode beh inp true exif sw).destMetaFrom =
      (convert_image_save mode beh sw).destMetaFrom ∧
    (convert_image_run mode beh inp true exif sw).saveAttempts =
      (convert_image_save mode beh sw).saveAttempts ∧
    (sw = true → (convert_image_run mode beh inp true exif sw).warnings =
      (convert_image_save mode beh sw).warnings) ∧
    (sw = false → (convert_image_save mode beh sw).raised = none →
      (convert_image_run mode beh inp true exif sw).warnings =
        (convert_image_save mode beh sw).warnings ++
          [if exif = ExifOutcome.toolNotFound then exifMissingMsg
           else exifFailedMsg]) := by
  unfold convert_image_run
  by_cases hr : (convert_image_save mode beh sw).raised = none
  · rw [if_pos hr]
    cases exif with
    | success => exact absurd rfl hex
    | toolNotFound =>
      refine ⟨rfl, rfl, rfl, rfl, ?_, ?_⟩
      · intro hsw
        subst hsw
        simp [metadata_step]
      · intro hsw _
        subst hsw
        simp [metadata_step]
    | exitFailure =>
      refine ⟨rfl, rfl, rfl, rfl, ?_, ?_⟩
      · intro hsw
        subst hsw
        simp [metadata_step]
      · intro hsw _
        subst hsw
        simp [metadata_step]
  · rw [if_neg hr]
    exact ⟨rfl, rfl, rfl, rfl, fun _ => rfl, fun _ hnone => absurd hnone hr⟩

/-- C8 witness: a successful save followed by an absent exiftool, warnings
not suppressed. -/
theorem C8_metadata_best_effort_witness :
    (convert_image_run PyImageMode.rgb (fun _ => SaveOutcome.ok) "src.png"
      true ExifOutcome.toolNotFound false).raised = none ∧
    (convert_image_run PyImageMode.rgb (fun _ => SaveOutcome.ok) "src.png"
      true ExifOutcome.toolNotFound false).destContent = some PyImageMode.rgb ∧
    (convert_image_run PyImageMode.rgb (fun _ => SaveOutcome.ok) "src.png"
      true ExifOutcome.toolNotFound false).warnings = [exifMissingMsg] := by
  have h := C8_metadata_best_effort PyImageMode.rgb (fun _ => SaveOutcome.ok)
    "src.png" ExifOutcome.toolNotFound false (by decide)
  refine ⟨h.1.trans (by decide), h.2.1.trans (by decide), ?_⟩
  have hw := h.2.2.2.2.2 rfl (by decide)
  rw [hw]
  decide

theorem foldl_skipBlack_eq (page : List PdfImage) :
    ∀ acc : List PdfImage,
      page.foldl
        (fun imgs2 img => if isAllBlack img then imgs2 else imgs2 ++ [img]) acc
        = acc ++ page.filter (fun img => !isAllBlack img) := by
  induction page with
  | nil => intro acc; simp
  | cons hd tl ih =>
    intro acc
    cases hb : isAllBlack hd with
    | false => simp [List.foldl_cons, hb, ih, List.filter_cons, List.append_assoc]
    | true => simp [List.foldl_cons, hb, ih, List.filter_cons]

theorem extract_images_from_pdf_eq (pages : List (List PdfImage)) :
    extract_images_from_pdf pages =
      (pages.flatten).filter (fun img => !isAllBlack img) := by
  have h : ∀ (ps : List (List PdfImage)) (acc : List PdfImage),
      ps.foldl
        (fun imgs page =>
          page.foldl
            (fun imgs2 img => if isAllBlack img then imgs2 else imgs2 ++ [img])
            imgs)
        acc
        = acc ++ (ps.flatten).filter (fun img => !isAllBlack img) := by
    intro ps
    induction ps with
    | nil => intro acc; simp
    | cons p ps2 ih =>
      intro acc
      rw [List.foldl_cons, foldl_skipBlack_eq p acc, ih, List.flatten_cons,
        List.filter_append, List.append_assoc]
  simpa using h pages []

theorem row_all_black (row : List Pixel) :
    (row.all fun px => px = ((0, 0, 0) : Pixel)) = true ↔
      row = row.map (fun _ => ((0, 0, 0) : Pixel)) := by
  induction row with
  | nil => simp
  | cons px t ih =>
    rw [List.all_cons, Bool.and_eq_true, decide_eq_true_eq, List.map_cons]
    constructor
    · rintro ⟨h1, h2⟩
      subst h1
      exact congrArg (List.cons _) (ih.mp h2)
    · intro h
      injection h with h1 h2
      exact ⟨h1, ih.mpr h2⟩

theorem isAllBlack_iff (img : PdfImage) :
    isAllBlack img = true ↔ img = blackLike img := by
  unfold isAllBlack blackLike
  induction img with
  | nil => simp
  | cons row rows ih =>
    rw [List.all_cons, Bool.and_eq_true, List.map_cons]
    constructor
    · rintro ⟨h1, h2⟩
      have hrow := (row_all_black row).mp h1
      have hrows := ih.mp h2
      rw [← hrow, ← hrows]
    · intro h
      injection h with h1 h2
      exact ⟨(row_all_black row).mpr h1, ih.mpr h2⟩

/-- C9: the PDF image extractor returns exactly the page-order
concatenation of the parser-ordered per-page images with every all-black
image filtered out, so no returned image is pixel-for-pixel identical to
the solid black image of its own dimensions (being all black is equivalent
to equalling that solid black image). -/
theorem C9_black_filter (pages : List (List PdfImage)) :
    extract_images_from_pdf pages =
      (pages.flatten).filter (fun img => !isAllBlack img) ∧
    (extract_images_from_pdf pages).all (fun img => !isAllBlack img) = true ∧
    ∀ img : PdfImage, isAllBlack img = true ↔ img = blackLike img := by
  refine ⟨extract_images_from_pdf_eq pages, ?_, isAllBlack_iff⟩
  rw [extract_images_from_pdf_eq pages, List.all_eq_true]
  intro x hx
  exact (List.mem_filter.mp hx).2

/-- C10: each extraction entry point accepts a path exactly when its
lower-cased form ends with the required extension (so mixed-case
extensions are accepted), and a rejected path produces the `ValueError`
as the sole event, before any file is opened; an accepted path's first
event is opening the input. -/
theorem C10_extension_gate (p outp : String) :
    (raisesBeforeFs (extract_text_from_doc_trace p outp) =
      !(pyEndsWith (pyLower p) ".docx")) ∧
    (raisesBeforeFs (extract_images_from_doc_trace p) =
      !(pyEndsWith (pyLower p) ".docx")) ∧
    (raisesBeforeFs (extract_text_from_pdf_trace p outp) =
      !(pyEndsWith (pyLower p) ".pdf")) ∧
    (raisesBeforeFs (extract_images_from_pdf_trace p) =
      !(pyEndsWith (pyLower p) ".pdf")) ∧
    (pyEndsWith (pyLower p) ".docx" = false →
      extract_text_from_doc_trace p outp =
        [Event.raiseErr (PyErr.valueError "Only .docx files are supported (not .doc).")] ∧
      extract_images_from_doc_trace p =
        [Event.raiseErr (PyErr.valueError "Only .docx files are supported.")]) ∧
    (pyEndsWith (pyLower p) ".pdf" = false →
      extract_text_from_pdf_trace p outp =
        [Event.raiseErr (PyErr.valueError "Only .pdf files are supported.")] ∧
      extract_images_from_pdf_trace p =
        [Event.raiseErr (PyErr.valueError "Only .pdf files are supported.")]) ∧
    (pyEndsWith (pyLower p) ".docx" = true →
      (extract_text_from_doc_trace p outp).head? = some (Event.fsOpen p) ∧
      extract_images_from_doc_trace p = [Event.fsOpen p]) ∧
    (pyEndsWith (pyLower p) ".pdf" = true →
      (extract_text_from_pdf_trace p outp).head? = some (Event.fsOpen p) ∧
      extract_images_from_pdf_trace p = [Event.fsOpen p]) := by
  cases hd : pyEndsWith (pyLower p) ".docx" <;>
    cases hp : pyEndsWith (pyLower p) ".pdf" <;>
    simp [extract_text_from_doc_trace, extract_images_from_doc_trace,
      extract_text_from_pdf_trace, extract_images_from_pdf_trace, hd, hp,
      raisesBeforeFs, firstEffect, Event.isFs, Event.isRaise, List.find?,
      List.singleton_append, List.head?]

/-- C10 witness: mixed-case extensions are accepted and a mismatched
extension is rejected before any filesystem access. -/
theorem C10_extension_gate_witness :
    raisesBeforeFs (extract_text_from_doc_trace "A.DOCX" "") = false ∧
    raisesBeforeFs (extract_images_from_pdf_trace "b.Pdf") = false ∧
    extract_text_from_doc_trace "name.txt" "" =
      [Event.raiseErr (PyErr.valueError "Only .docx files are supported (not .doc).")] ∧
    extract_images_from_doc_trace "A.DOCX" = [Event.fsOpen "A.DOCX"] := by
  refine ⟨?_, ?_, ?_, ?_⟩
  · rw [(C10_extension_gate "A.DOCX" "").1]
    decide
  · rw [(C10_extension_gate "b.Pdf" "").2.2.2.1]
    decide
  · exact ((C10_extension_gate "name.txt" "").2.2.2.2.1 (by decide)).1
  · exact ((C10_extension_gate "A.DOCX" "").2.2.2.2.2.2.1 (by decide)).2

end Fileconvert
